import Mathlib

/-!
Verification development for the Crazyflie PC-side flight controller
(`cf_pc_control.py`): a shallow embedding of the controller state, the
control law `calc_control_signals`, the arm/disarm state machine
(`enable` / `disable`), the position sanity check, and the waypoint
sequencer (`coordinates`), together with theorems settling the spec's
claims about them.

Numeric values are modelled as real numbers; `np.clip`, `np.radians`,
`np.degrees`, `np.linalg.norm` are given their mathematical meanings.
-/

namespace CF

/-- A 3-vector, used for positions, velocities and the stabilizer
attitude triple (roll, pitch, yaw). -/
structure Vec3 where
  x : ℝ
  y : ℝ
  z : ℝ

/-- A quaternion stored scalar-last, as `self.attq = [q1, q2, q3, q0]`. -/
structure Quat where
  x : ℝ
  y : ℝ
  z : ℝ
  w : ℝ

/-- Gains of one PID channel of `config.json` (kP, kD, kI). -/
structure Gains where
  kP : ℝ
  kD : ℝ
  kI : ℝ

/-- The configuration snapshot read by `calc_control_signals`: the
`thrust`, `pitchroll` and `yaw` gain blocks, the thrust scale `C`,
mass `m` and gravity `g`. -/
structure Config where
  thrust : Gains
  thrustC : ℝ
  pitchroll : Gains
  yaw : Gains
  m : ℝ
  g : ℝ

/-- The mutable fields of `ControllerThread` that the control loop,
the arm/disarm transitions and the waypoint sequencer read and write. -/
structure State where
  pos : Vec3
  vel : Vec3
  attq : Quat
  yawrate : ℝ
  stab_att : Vec3
  pos_ref : Vec3
  yaw_ref : ℝ
  pos_ref_initial : Vec3
  cum_height_err : ℝ
  err_mag : ℝ
  roll_r : ℝ
  pitch_r : ℝ
  yawrate_r : ℝ
  thrust_r : ℝ
  enabled : Bool

/-- A setpoint message sent to the Crazyflie commander:
(roll, pitch, yawrate, thrust). -/
def Setpoint : Type := ℝ × ℝ × ℝ × ℝ

/-- Class constant `thrust_initial = 0`. -/
def thrust_initial : ℝ := 0

/-- Class constant `thrust_step = 5e3`. -/
def thrust_step : ℝ := 5e3

/-- Class constant `thrust_limit = (0, .8 * 2**16 - 1)`. -/
noncomputable def thrust_limit : ℝ × ℝ := (0, 0.8 * 2 ^ 16 - 1)

/-- Class constant `roll_limit = (-30.0, 30.0)`. -/
def roll_limit : ℝ × ℝ := (-30, 30)

/-- Class constant `pitch_limit = (-30.0, 30.0)`. -/
def pitch_limit : ℝ × ℝ := (-30, 30)

/-- Class constant `yaw_limit = (-200.0, 200.0)`. -/
def yaw_limit : ℝ × ℝ := (-200, 200)

/-- Class constant `cumerr_limit = (-200, 200)`. -/
def cumerr_limit : ℝ × ℝ := (-200, 200)

/-- `np.clip(x, lo, hi)`. -/
noncomputable def clip (x lo hi : ℝ) : ℝ := min (max x lo) hi

/-- `np.radians`: degrees to radians. -/
noncomputable def radians (d : ℝ) : ℝ := d * (Real.pi / 180)

/-- `np.degrees`: radians to degrees. -/
noncomputable def degrees (r : ℝ) : ℝ := r * (180 / Real.pi)

/-- Modelled from the spec: `trans.euler_from_quaternion` comes from the
external `transformations` library, which is not under src/; the spec says
only that the attitude quaternion is decomposed into its world-frame Euler
yaw (static-xyz convention, scalar-last quaternion).  For such a quaternion
the rotation matrix has `M00 = 1 - 2 (y^2 + z^2)` and `M10 = 2 (x y + z w)`,
and yaw is `atan2 M10 M00`, here written as the argument of the complex
number `M00 + M10 i`. -/
noncomputable def yaw_from_quaternion (q : Quat) : ℝ :=
  Complex.arg ⟨1 - 2 * (q.y ^ 2 + q.z ^ 2), 2 * (q.x * q.y + q.z * q.w)⟩

/-- Position error `ex = (self.pos_ref - self.pos).x`. -/
def e_x (s : State) : ℝ := s.pos_ref.x - s.pos.x

/-- Position error `ey = (self.pos_ref - self.pos).y`. -/
def e_y (s : State) : ℝ := s.pos_ref.y - s.pos.y

/-- Position error `ez = (self.pos_ref - self.pos).z`. -/
def e_z (s : State) : ℝ := s.pos_ref.z - s.pos.z

/-- `self.err_mag = np.linalg.norm([ex, ey, ez])`. -/
noncomputable def err_mag_of (s : State) : ℝ :=
  Real.sqrt (e_x s ^ 2 + e_y s ^ 2 + e_z s ^ 2)

/-- `eyaw = np.degrees(self.yaw_ref) - self.stab_att[2]`. -/
noncomputable def eyaw_of (s : State) : ℝ := degrees s.yaw_ref - s.stab_att.z

/-- The integral update of `calc_control_signals`: while enabled,
`self.cum_height_err += ez` followed by
`self.cum_height_err = np.clip(self.cum_height_err, *self.cumerr_limit)`;
while disabled the accumulator is untouched. -/
noncomputable def cum_update (s : State) : ℝ :=
  if s.enabled then clip (s.cum_height_err + e_z s) cumerr_limit.1 cumerr_limit.2
  else s.cum_height_err

/-- The raw thrust command of `calc_control_signals` before clipping:
`4 * C * (kP*ez - kD*vel[2] + mg + kI*cum_height_err) * 2**16
  / (cos(radians(stab_att[0])) * cos(radians(stab_att[1])))`,
using the accumulator value after this tick's update. -/
noncomputable def thrust_raw (cfg : Config) (s : State) : ℝ :=
  4 * cfg.thrustC *
    (cfg.thrust.kP * e_z s - cfg.thrust.kD * s.vel.z + cfg.m * cfg.g +
      cfg.thrust.kI * cum_update s) *
    2 ^ 16 /
    (Real.cos (radians s.stab_att.x) * Real.cos (radians s.stab_att.y))

/-- The world-frame lateral commands before rotation:
`pitch_r = 20 * (kP*ex - kD*vel[0])`, `roll_r = -20 * (kP*ey - kD*vel[1])`. -/
def pitch_roll_world (cfg : Config) (s : State) : ℝ × ℝ :=
  (20 * (cfg.pitchroll.kP * e_x s - cfg.pitchroll.kD * s.vel.x),
   -20 * (cfg.pitchroll.kP * e_y s - cfg.pitchroll.kD * s.vel.y))

/-- The lateral commands after the yaw rotation
`A = [[cos yaw, -sin yaw], [sin yaw, cos yaw]]` applied as
`pitch_r, roll_r = A @ [pitch_r, roll_r]`, where `yaw` is the Euler yaw
extracted from `self.attq`. -/
noncomputable def pitch_roll_rot (cfg : Config) (s : State) : ℝ × ℝ :=
  (Real.cos (yaw_from_quaternion s.attq) * (pitch_roll_world cfg s).1 -
     Real.sin (yaw_from_quaternion s.attq) * (pitch_roll_world cfg s).2,
   Real.sin (yaw_from_quaternion s.attq) * (pitch_roll_world cfg s).1 +
     Real.cos (yaw_from_quaternion s.attq) * (pitch_roll_world cfg s).2)

/-- The raw yaw-rate command `-(kP * eyaw - kD * self.yawrate)`. -/
noncomputable def yawrate_raw (cfg : Config) (s : State) : ℝ :=
  -(cfg.yaw.kP * eyaw_of s - cfg.yaw.kD * s.yawrate)

/-- `ControllerThread.calc_control_signals`: one control tick.  Updates
the error magnitude and (while enabled) the height-error integral, then
stores the four clipped control outputs. -/
noncomputable def calc_control_signals (cfg : Config) (s : State) : State :=
  { s with
    err_mag := err_mag_of s,
    cum_height_err := cum_update s,
    roll_r := clip (pitch_roll_rot cfg s).2 roll_limit.1 roll_limit.2,
    pitch_r := clip (pitch_roll_rot cfg s).1 pitch_limit.1 pitch_limit.2,
    yawrate_r := clip (yawrate_raw cfg s) yaw_limit.1 yaw_limit.2,
    thrust_r := clip (thrust_raw cfg s) thrust_limit.1 thrust_limit.2 }

/-- `ControllerThread.disable(stop)`: optionally sends a zero setpoint,
clears the enabled flag, zeroes roll/pitch/yawrate and resets thrust to
`thrust_initial`.  The second component lists the setpoints sent. -/
def disable (stop : Bool) (s : State) : State × List Setpoint :=
  ({ s with
      enabled := false,
      roll_r := 0,
      pitch_r := 0,
      yawrate_r := 0,
      thrust_r := thrust_initial },
   if stop then [((0 : ℝ), (0 : ℝ), (0 : ℝ), (0 : ℝ))] else [])

/-- `ControllerThread.enable()`: sends a zero setpoint to unlock the
commander, resets the height-error integral to zero and sets the enabled
flag. -/
def enable (s : State) : State × List Setpoint :=
  ({ s with cum_height_err := 0, enabled := true },
   [((0 : ℝ), (0 : ℝ), (0 : ℝ), (0 : ℝ))])

/-- The state of `ControllerThread` after `__init__` (which calls
`disable(stop=False)` and zero-initialises the estimate, outputs and
integral; `pos_ref = [pos[:2], 1.0]`). -/
def initState : State :=
  { pos := ⟨0, 0, 0⟩,
    vel := ⟨0, 0, 0⟩,
    attq := ⟨0, 0, 0, 1⟩,
    yawrate := 0,
    stab_att := ⟨0, 0, 0⟩,
    pos_ref := ⟨0, 0, 1⟩,
    yaw_ref := 0,
    pos_ref_initial := ⟨0, 0, 1⟩,
    cum_height_err := 0,
    err_mag := 0,
    roll_r := 0,
    pitch_r := 0,
    yawrate_r := 0,
    thrust_r := 0,
    enabled := false }

open Classical in
/-- `ControllerThread.make_position_sanity_check`: raises a RuntimeError
when `np.max(np.abs(self.pos[:2])) > 20 or self.pos[2] < 0 or
self.pos[2] > 5`, otherwise returns with the state untouched. -/
noncomputable def make_position_sanity_check (s : State) : Except String State :=
  if max |s.pos.x| |s.pos.y| > 20 ∨ s.pos.z < 0 ∨ s.pos.z > 5 then
    Except.error "Position estimate out of bounds"
  else Except.ok s

/-- One waypoint of `config['coordinates']`: x, y (possibly relative),
z and yaw (degrees, absolute). -/
structure Waypoint where
  x : ℝ
  y : ℝ
  z : ℝ
  yaw : ℝ

/-- Resolution of a waypoint to an absolute reference, as done in
`coordinates`: when the sequence-wide `relative` flag is set, x and y are
offset by `pos_ref_initial`; z is absolute and yaw is converted to
radians. -/
noncomputable def resolve_waypoint (relative : Bool) (init : Vec3) (w : Waypoint) :
    Vec3 × ℝ :=
  (⟨(if relative then w.x + init.x else w.x),
    (if relative then w.y + init.y else w.y), w.z⟩,
   radians w.yaw)

/-- The control points of the `coordinates` loop: about to set the
reference for waypoint `n`; busy-waiting for convergence on waypoint `n`;
holding the settle delay after waypoint `n`; finished. -/
inductive SeqPhase where
  | start (n : ℕ)
  | waiting (n : ℕ)
  | settling (n : ℕ)
  | done

/-- One step of the `coordinates` waypoint sequencer.  At `start n` the
reference is set to waypoint `n` (or, past the end of the list, the
controller is disabled and the sequencer finishes); at `waiting n` the
loop keeps sleeping while `control.err_mag > waypoint_margin` and
otherwise moves on; `settling n` is the fixed 0.5 s hold before the next
waypoint. -/
noncomputable def coordinates_step (relative : Bool) (margin : ℝ)
    (wps : List Waypoint) (ph : SeqPhase) (s : State) : SeqPhase × State :=
  match ph with
  | SeqPhase.start n =>
    match wps[n]? with
    | some w =>
      (SeqPhase.waiting n,
       { s with
          pos_ref := (resolve_waypoint relative s.pos_ref_initial w).1,
          yaw_ref := (resolve_waypoint relative s.pos_ref_initial w).2 })
    | none => (SeqPhase.done, (disable true s).1)
  | SeqPhase.waiting n =>
    if s.err_mag > margin then (SeqPhase.waiting n, s)
    else (SeqPhase.settling n, s)
  | SeqPhase.settling n => (SeqPhase.start (n + 1), s)
  | SeqPhase.done => (SeqPhase.done, s)

/-- Controller states reachable from `__init__` by the program's
operations: control ticks, arm/disarm, reference and trim changes from
the keyboard thread, telemetry callbacks, and waypoint-sequencer steps. -/
inductive Reachable : State → Prop where
  | init : Reachable initState
  | tick (cfg : Config) {s : State} :
      Reachable s → Reachable (calc_control_signals cfg s)
  | arm {s : State} : Reachable s → Reachable (enable s).1
  | disarm (stop : Bool) {s : State} :
      Reachable s → Reachable (disable stop s).1
  | set_pos_ref (p : Vec3) {s : State} :
      Reachable s → Reachable { s with pos_ref := p }
  | set_yaw_ref (y : ℝ) {s : State} :
      Reachable s → Reachable { s with yaw_ref := y }
  | set_pos_ref_initial (p : Vec3) {s : State} :
      Reachable s → Reachable { s with pos_ref_initial := p }
  | log_pos (p : Vec3) {s : State} :
      Reachable s → Reachable { s with pos := p }
  | log_vel (v : Vec3) (yr : ℝ) {s : State} :
      Reachable s → Reachable { s with vel := v, yawrate := yr }
  | log_att (q : Quat) {s : State} :
      Reachable s → Reachable { s with attq := q }
  | log_stab (a : Vec3) {s : State} :
      Reachable s → Reachable { s with stab_att := a }
  | inc_thrust {s : State} :
      Reachable s → Reachable { s with thrust_r := min (s.thrust_r + thrust_step) 65535 }
  | dec_thrust {s : State} :
      Reachable s → Reachable { s with thrust_r := max (s.thrust_r - thrust_step) 0 }
  | seq_step (relative : Bool) (margin : ℝ) (wps : List Waypoint)
      (ph : SeqPhase) {s : State} :
      Reachable s → Reachable (coordinates_step relative margin wps ph s).2

/-- The spec's thrust formula, written from its words: `thrust_raw =
4·C·(kP·e_z − kD·vel_z + m·g + kI·integral) · 2^16 /
(cos(roll_body)·cos(pitch_body))`, with `e_z` the z component of
(reference position − estimated position), `integral` the accumulator
after this tick's update, and the body angles the measured stabilizer
roll and pitch converted from degrees to radians. -/
noncomputable def spec_thrust_raw (cfg : Config) (s : State) : ℝ :=
  4 * cfg.thrustC *
    (cfg.thrust.kP * (s.pos_ref.z - s.pos.z) - cfg.thrust.kD * s.vel.z +
      cfg.m * cfg.g + cfg.thrust.kI * cum_update s) *
    2 ^ 16 /
    (Real.cos (radians s.stab_att.x) * Real.cos (radians s.stab_att.y))

/-- The spec's lateral law, written from its words: world-frame commands
`pitch = 20·(kP·e_x − kD·vel_x)`, `roll = −20·(kP·e_y − kD·vel_y)`,
jointly rotated as `[pitch'; roll'] = R(yaw)·[pitch; roll]` by the 2-D
rotation matrix built from the yaw angle extracted from the estimated
attitude quaternion. -/
noncomputable def spec_lateral (cfg : Config) (s : State) : ℝ × ℝ :=
  let yaw := yaw_from_quaternion s.attq
  let pitch := 20 * (cfg.pitchroll.kP * (s.pos_ref.x - s.pos.x) -
    cfg.pitchroll.kD * s.vel.x)
  let roll := -20 * (cfg.pitchroll.kP * (s.pos_ref.y - s.pos.y) -
    cfg.pitchroll.kD * s.vel.y)
  (Real.cos yaw * pitch - Real.sin yaw * roll,
   Real.sin yaw * pitch + Real.cos yaw * roll)

/-- A sample configuration used in witnesses and counterexamples:
`kP = 1`, `kD = 0`, `kI = 0` on each channel, `C = 1`, `m = 1`,
`g = 10`. -/
def cfg0 : Config :=
  { thrust := ⟨1, 0, 0⟩, thrustC := 1, pitchroll := ⟨1, 0, 0⟩,
    yaw := ⟨1, 0, 0⟩, m := 1, g := 10 }

/-- A sample waypoint. -/
def wp0 : Waypoint := ⟨0, 0, 1, 0⟩

/-- The identity attitude quaternion: zero roll, pitch and yaw. -/
def quat_id : Quat := ⟨0, 0, 0, 1⟩

/-- The attitude quaternion of a pure 90° yaw rotation. -/
noncomputable def quat_yaw90 : Quat :=
  ⟨0, 0, Real.sqrt 2 / 2, Real.sqrt 2 / 2⟩

/-- Sample state for the lateral scenario with zero yaw: estimate at the
origin with identity attitude, zero velocity, reference at (1, 0, 0). -/
def s_scn2 : State := { initState with pos_ref := ⟨1, 0, 0⟩ }

/-- Sample state for the lateral scenario with a 90° yaw estimate and a
lateral error along world x. -/
noncomputable def s_scn3 : State :=
  { initState with attq := quat_yaw90, pos_ref := ⟨1, 0, 0⟩ }

/-- Sample armed state matching the spec's hover scenario literally:
estimate at the origin, zero velocity, zero tilt, zero integral,
reference (0, 0, 1, 0°). -/
def s_hover_claim : State := { initState with enabled := true }

/-- Sample state with zero height error: like `initState` but with the
reference at the estimate's own position. -/
def s_hover0 : State := { initState with pos_ref := ⟨0, 0, 0⟩ }

/-- Sample disarmed state whose reported error magnitude equals the
waypoint margin of 1 exactly. -/
def s_at_margin : State := { initState with err_mag := 1 }

lemma clip_le_hi (x lo hi : ℝ) : clip x lo hi ≤ hi := min_le_right _ _

lemma lo_le_clip (x lo hi : ℝ) (h : lo ≤ hi) : lo ≤ clip x lo hi :=
  le_min (le_max_right _ _) h

lemma abs_clip_le (x : ℝ) : |clip x (-200) 200| ≤ 200 :=
  abs_le.mpr ⟨lo_le_clip _ _ _ (by norm_num), clip_le_hi _ _ _⟩

/-- C1: the raw thrust command of `calc_control_signals` before clamping
equals `4·C·(kP·e_z − kD·vel_z + m·g + kI·cum_height_err)·2^16 /
(cos(roll_body)·cos(pitch_body))`, with `e_z` the z component of the
reference-minus-estimate position error, `cum_height_err` the integral
state after this tick's update, and the body angles the measured
stabilizer roll and pitch in radians; the stored thrust is its clipped
value. -/
theorem thrust_law (cfg : Config) (s : State) :
    thrust_raw cfg s = spec_thrust_raw cfg s ∧
    (calc_control_signals cfg s).thrust_r =
      clip (thrust_raw cfg s) 0 (0.8 * 2 ^ 16 - 1) :=
  ⟨rfl, rfl⟩

/-- C2: after every invocation of `calc_control_signals`, on any input
state and configuration, the stored outputs lie in their clamp ranges:
roll and pitch in [−30, 30], yaw rate in [−200, 200], and thrust in
[0, 0.8·2^16 − 1], the thrust in particular floored at 0. -/
theorem outputs_within_limits (cfg : Config) (s : State) :
    (-30 ≤ (calc_control_signals cfg s).roll_r ∧
      (calc_control_signals cfg s).roll_r ≤ 30) ∧
    (-30 ≤ (calc_control_signals cfg s).pitch_r ∧
      (calc_control_signals cfg s).pitch_r ≤ 30) ∧
    (-200 ≤ (calc_control_signals cfg s).yawrate_r ∧
      (calc_control_signals cfg s).yawrate_r ≤ 200) ∧
    (0 ≤ (calc_control_signals cfg s).thrust_r ∧
      (calc_control_signals cfg s).thrust_r ≤ 0.8 * 2 ^ 16 - 1) :=
  ⟨⟨lo_le_clip _ _ _ (by norm_num [roll_limit]), clip_le_hi _ _ _⟩,
   ⟨lo_le_clip _ _ _ (by norm_num [pitch_limit]), clip_le_hi _ _ _⟩,
   ⟨lo_le_clip _ _ _ (by norm_num [yaw_limit]), clip_le_hi _ _ _⟩,
   ⟨lo_le_clip _ _ _ (by norm_num [thrust_limit]), clip_le_hi _ _ _⟩⟩

/-- C8: `enable()` sends exactly one zero setpoint, resets the integral
accumulator `cum_height_err` to zero and sets the armed flag; in
particular re-arming after a `disable()` never carries integral state
over. -/
theorem enable_spec (s : State) :
    (enable s).2 = [((0 : ℝ), (0 : ℝ), (0 : ℝ), (0 : ℝ))] ∧
    (enable s).1.cum_height_err = 0 ∧
    (enable s).1.enabled = true ∧
    (∀ stop : Bool, ∀ t : State, (enable (disable stop t).1).1.cum_height_err = 0) :=
  ⟨rfl, rfl, rfl, fun _ _ => rfl⟩

/-- C9: `disable()` sends a zero setpoint, zeroes the roll, pitch and
yaw-rate outputs, resets thrust to the idle value `thrust_initial = 0`,
clears the armed flag, and is idempotent on the controller state. -/
theorem disable_spec (s : State) :
    (disable true s).2 = [((0 : ℝ), (0 : ℝ), (0 : ℝ), (0 : ℝ))] ∧
    (disable true s).1.roll_r = 0 ∧
    (disable true s).1.pitch_r = 0 ∧
    (disable true s).1.yawrate_r = 0 ∧
    (disable true s).1.thrust_r = thrust_initial ∧
    thrust_initial = 0 ∧
    (disable true s).1.enabled = false ∧
    (disable true (disable true s).1).1 = (disable true s).1 :=
  ⟨rfl, rfl, rfl, rfl, rfl, rfl, rfl, rfl⟩

/-- C10: `disable()` leaves the reference (`pos_ref`, `yaw_ref`) and the
integral accumulator `cum_height_err` unchanged, and disarmed control
ticks leave the accumulator unchanged as well, so integral state
persists through a disarmed period until the next `enable()`. -/
theorem disable_frame (stop : Bool) (cfg : Config) (s : State) :
    (disable stop s).1.pos_ref = s.pos_ref ∧
    (disable stop s).1.yaw_ref = s.yaw_ref ∧
    (disable stop s).1.cum_height_err = s.cum_height_err ∧
    (s.enabled = false →
      (calc_control_signals cfg s).cum_height_err = s.cum_height_err) := by
  refine ⟨rfl, rfl, rfl, fun h => ?_⟩
  simp [calc_control_signals, cum_update, h]

/-- Witness for C10 at a concrete disarmed state. -/
theorem disable_frame_witness :
    (calc_control_signals cfg0 initState).cum_height_err =
      initState.cum_height_err :=
  (disable_frame true cfg0 initState).2.2.2 rfl

/-- C3: the height-error integral starts at zero; an armed tick adds the
height error and clamps the result to [−200, 200] while a disarmed tick
leaves it unchanged; consequently every reachable controller state has
`|cum_height_err| ≤ 200`, however long an error persists. -/
theorem cum_height_err_spec :
    initState.cum_height_err = 0 ∧
    (∀ cfg : Config, ∀ s : State,
      (calc_control_signals cfg s).cum_height_err =
        if s.enabled then clip (s.cum_height_err + e_z s) (-200) 200
        else s.cum_height_err) ∧
    (∀ s : State, Reachable s → |s.cum_height_err| ≤ 200) := by
  refine ⟨rfl, fun cfg s => rfl, fun s h => ?_⟩
  induction h with
  | init => norm_num [initState]
  | tick cfg hs ih =>
    show |cum_update _| ≤ 200
    unfold cum_update
    split
    · exact abs_clip_le _
    · exact ih
  | arm hs ih => norm_num [enable]
  | disarm stop hs ih => exact ih
  | set_pos_ref p hs ih => exact ih
  | set_yaw_ref y hs ih => exact ih
  | set_pos_ref_initial p hs ih => exact ih
  | log_pos p hs ih => exact ih
  | log_vel v yr hs ih => exact ih
  | log_att q hs ih => exact ih
  | log_stab a hs ih => exact ih
  | inc_thrust hs ih => exact ih
  | dec_thrust hs ih => exact ih
  | seq_step relative margin wps ph hs ih =>
    rename_i s'
    cases ph with
    | start n =>
      cases hw : wps[n]? with
      | some w => simpa [coordinates_step, hw] using ih
      | none => simpa [coordinates_step, hw, disable] using ih
    | waiting n =>
      by_cases hm : s'.err_mag > margin
      · simpa [coordinates_step, hm] using ih
      · simpa [coordinates_step, hm] using ih
    | settling n => simpa [coordinates_step] using ih
    | done => simpa [coordinates_step] using ih

/-- Witness for C3 at the initial state, which is reachable. -/
theorem cum_height_err_spec_witness : |initState.cum_height_err| ≤ 200 :=
  cum_height_err_spec.2.2 initState Reachable.init

/-- C4: the position sanity check raises the out-of-bounds error exactly
when `|x| > 20` or `|y| > 20` or `z < 0` or `z > 5`; every position
strictly inside that box is accepted, and acceptance returns the
controller state unchanged. -/
theorem position_sanity_check_spec (s : State) :
    (make_position_sanity_check s = Except.error "Position estimate out of bounds" ↔
      (|s.pos.x| > 20 ∨ |s.pos.y| > 20 ∨ s.pos.z < 0 ∨ s.pos.z > 5)) ∧
    ((|s.pos.x| < 20 ∧ |s.pos.y| < 20 ∧ 0 < s.pos.z ∧ s.pos.z < 5) →
      make_position_sanity_check s = Except.ok s) := by
  have hmax : max |s.pos.x| |s.pos.y| > 20 ∨ s.pos.z < 0 ∨ s.pos.z > 5 ↔
      |s.pos.x| > 20 ∨ |s.pos.y| > 20 ∨ s.pos.z < 0 ∨ s.pos.z > 5 := by
    rw [gt_iff_lt, lt_max_iff]
    tauto
  constructor
  · by_cases h : max |s.pos.x| |s.pos.y| > 20 ∨ s.pos.z < 0 ∨ s.pos.z > 5
    · rw [make_position_sanity_check, if_pos h]
      exact iff_of_true rfl (hmax.mp h)
    · rw [make_position_sanity_check, if_neg h]
      refine iff_of_false (by simp) ?_
      exact fun hc => h (hmax.mpr hc)
  · rintro ⟨hx, hy, hz0, hz5⟩
    have h : ¬(max |s.pos.x| |s.pos.y| > 20 ∨ s.pos.z < 0 ∨ s.pos.z > 5) := by
      push_neg
      exact ⟨max_le hx.le hy.le, hz0.le, hz5.le⟩
    rw [make_position_sanity_check, if_neg h]

/-- Witness for C4 at concrete in- and out-of-bounds positions. -/
theorem position_sanity_check_spec_witness :
    make_position_sanity_check { initState with pos := ⟨0, 0, 1⟩ } =
      Except.ok { initState with pos := ⟨0, 0, 1⟩ } ∧
    make_position_sanity_check { initState with pos := ⟨25, 0, 0⟩ } =
      Except.error "Position estimate out of bounds" :=
  ⟨(position_sanity_check_spec { initState with pos := ⟨0, 0, 1⟩ }).2
      (by norm_num [initState]),
   (position_sanity_check_spec { initState with pos := ⟨25, 0, 0⟩ }).1.mpr
      (by norm_num [initState])⟩

lemma yaw_quat_id : yaw_from_quaternion quat_id = 0 := by
  have h : (⟨1 - 2 * (quat_id.y ^ 2 + quat_id.z ^ 2),
      2 * (quat_id.x * quat_id.y + quat_id.z * quat_id.w)⟩ : ℂ) = 1 :=
    Complex.ext (by norm_num [quat_id, Complex.one_re])
      (by norm_num [quat_id, Complex.one_im])
  rw [yaw_from_quaternion, h, Complex.arg_one]

lemma yaw_quat_yaw90 : yaw_from_quaternion quat_yaw90 = Real.pi / 2 := by
  have hs : Real.sqrt 2 ^ 2 = 2 := Real.sq_sqrt (by norm_num)
  have h : (⟨1 - 2 * (quat_yaw90.y ^ 2 + quat_yaw90.z ^ 2),
      2 * (quat_yaw90.x * quat_yaw90.y + quat_yaw90.z * quat_yaw90.w)⟩ : ℂ) =
      Complex.I :=
    Complex.ext
      (by
        simp only [quat_yaw90, Complex.I_re]
        nlinarith [hs])
      (by
        simp only [quat_yaw90, Complex.I_im]
        nlinarith [hs])
  rw [yaw_from_quaternion, h, Complex.arg_I]

/-- C5: the lateral commands before clamping are the world-frame PD
commands `pitch = 20·(kP·e_x − kD·vel_x)` and
`roll = −20·(kP·e_y − kD·vel_y)` jointly rotated by `R(yaw)` built from
the yaw extracted from the estimated attitude quaternion; with zero yaw,
zero velocity and error (1, 0, 0) the pitch command is positive and the
roll command zero, and with a 90° yaw estimate a pure world-frame pitch
command becomes a pure body-frame roll command. -/
theorem lateral_law :
    (∀ cfg : Config, ∀ s : State,
      pitch_roll_rot cfg s = spec_lateral cfg s ∧
      (calc_control_signals cfg s).pitch_r =
        clip (pitch_roll_rot cfg s).1 (-30) 30 ∧
      (calc_control_signals cfg s).roll_r =
        clip (pitch_roll_rot cfg s).2 (-30) 30) ∧
    (∀ cfg : Config, ∀ s : State, 0 < cfg.pitchroll.kP →
      yaw_from_quaternion s.attq = 0 → s.vel.x = 0 → s.vel.y = 0 →
      e_x s = 1 → e_y s = 0 →
      0 < (pitch_roll_rot cfg s).1 ∧ (pitch_roll_rot cfg s).2 = 0) ∧
    (∀ cfg : Config, ∀ s : State,
      yaw_from_quaternion s.attq = Real.pi / 2 →
      (pitch_roll_world cfg s).2 = 0 →
      (pitch_roll_rot cfg s).1 = 0 ∧
      (pitch_roll_rot cfg s).2 = (pitch_roll_world cfg s).1) := by
  refine ⟨fun cfg s => ⟨rfl, rfl, rfl⟩,
    fun cfg s hkP hyaw hvx hvy hex hey => ?_,
    fun cfg s hyaw hr => ?_⟩
  · unfold pitch_roll_rot pitch_roll_world
    dsimp only
    rw [hyaw, hvx, hvy, hex, hey, Real.cos_zero, Real.sin_zero]
    constructor
    · nlinarith [hkP]
    · ring
  · unfold pitch_roll_rot
    rw [hyaw, hr, Real.cos_pi_div_two, Real.sin_pi_div_two]
    constructor <;> ring

/-- Witness for C5: both lateral scenarios at concrete inputs. -/
theorem lateral_law_witness :
    (0 < (pitch_roll_rot cfg0 s_scn2).1 ∧ (pitch_roll_rot cfg0 s_scn2).2 = 0) ∧
    ((pitch_roll_rot cfg0 s_scn3).1 = 0 ∧
      (pitch_roll_rot cfg0 s_scn3).2 = (pitch_roll_world cfg0 s_scn3).1) :=
  ⟨lateral_law.2.1 cfg0 s_scn2 (by norm_num [cfg0]) yaw_quat_id rfl rfl
      (by norm_num [e_x, s_scn2, initState])
      (by norm_num [e_y, s_scn2, initState]),
   lateral_law.2.2 cfg0 s_scn3 yaw_quat_yaw90
      (by norm_num [pitch_roll_world, e_y, s_scn3, initState, cfg0])⟩

/-- C6 counterexample: with margin 1, a disarmed state whose reported
error magnitude equals the margin exactly, the `coordinates` wait loop
exits and the sequencer advances, although the error is not strictly
below the margin and the controller is disarmed. -/
theorem coordinates_advance_counterexample :
    (coordinates_step false 1 [wp0, wp0] (SeqPhase.waiting 0) s_at_margin).1 =
      SeqPhase.settling 0 ∧
    ¬ (s_at_margin.err_mag < 1) ∧
    s_at_margin.enabled = false := by
  have h : ¬ (s_at_margin.err_mag > 1) := by norm_num [s_at_margin, initState]
  exact ⟨by simp [coordinates_step, h], by norm_num [s_at_margin, initState], rfl⟩

/-- C6 amended: the sequencer's wait on a waypoint ends exactly when the
reported error magnitude is at most the configured margin, irrespective
of the armed flag, and after the last waypoint the controller is
disarmed. -/
theorem coordinates_advance_amended :
    (∀ (relative : Bool) (margin : ℝ) (wps : List Waypoint) (n : ℕ) (s : State),
      (coordinates_step relative margin wps (SeqPhase.waiting n) s).1 =
        SeqPhase.settling n ↔ s.err_mag ≤ margin) ∧
    (∀ (relative : Bool) (margin : ℝ) (wps : List Waypoint) (n : ℕ)
        (s : State) (b : Bool),
      (coordinates_step relative margin wps (SeqPhase.waiting n)
          { s with enabled := b }).1 =
        (coordinates_step relative margin wps (SeqPhase.waiting n) s).1) ∧
    (∀ (relative : Bool) (margin : ℝ) (wps : List Waypoint) (n : ℕ) (s : State),
      wps[n]? = none →
      (coordinates_step relative margin wps (SeqPhase.start n) s).1 =
        SeqPhase.done ∧
      (coordinates_step relative margin wps (SeqPhase.start n) s).2.enabled =
        false) := by
  refine ⟨fun relative margin wps n s => ?_, fun relative margin wps n s b => ?_,
    fun relative margin wps n s hw => ?_⟩
  · by_cases h : s.err_mag > margin
    · simp only [coordinates_step, if_pos h]
      exact iff_of_false (by simp) fun hc => absurd hc (not_le.mpr h)
    · simp only [coordinates_step, if_neg h]
      exact iff_of_true trivial (not_lt.mp h)
  · by_cases h : s.err_mag > margin <;> simp [coordinates_step, h]
  · exact ⟨by simp [coordinates_step, hw], by simp [coordinates_step, hw, disable]⟩

/-- Witness for C6's amended claim: on an empty waypoint list the
sequencer finishes immediately and disarms the controller. -/
theorem coordinates_advance_amended_witness :
    (coordinates_step false 1 ([] : List Waypoint) (SeqPhase.start 0)
        initState).1 = SeqPhase.done ∧
    (coordinates_step false 1 ([] : List Waypoint) (SeqPhase.start 0)
        initState).2.enabled = false :=
  coordinates_advance_amended.2.2 false 1 [] 0 initState rfl

/-- C7 counterexample: in the spec's hover scenario taken literally
(estimate at the origin, reference (0, 0, 1, 0°), zero velocity, zero
tilt, zero integral, armed), the raw thrust picks up the kP term of the
1 m height error and does not equal `4·C·m·g·2^16`, already for the
sample configuration with kP = 1, kI = 0. -/
theorem hover_thrust_counterexample :
    thrust_raw cfg0 s_hover_claim ≠
      4 * cfg0.thrustC * cfg0.m * cfg0.g * 2 ^ 16 := by
  unfold thrust_raw cum_update
  norm_num [cfg0, s_hover_claim, initState, e_z, clip, cumerr_limit,
    radians, Real.cos_zero, min_def, max_def]

/-- C7 amended: whenever the height error, the vertical velocity, the
measured tilt and the integral state are all zero, the raw thrust before
clamping equals `4·C·m·g·2^16` exactly (pure hover compensation). -/
theorem hover_thrust_amended (cfg : Config) (s : State)
    (hcum : s.cum_height_err = 0) (hez : e_z s = 0) (hvz : s.vel.z = 0)
    (hroll : s.stab_att.x = 0) (hpitch : s.stab_att.y = 0) :
    thrust_raw cfg s = 4 * cfg.thrustC * cfg.m * cfg.g * 2 ^ 16 := by
  unfold thrust_raw cum_update
  rw [hez, hvz, hroll, hpitch, hcum]
  have hclip : clip (0 : ℝ) cumerr_limit.1 cumerr_limit.2 = 0 := by
    norm_num [clip, cumerr_limit]
  cases hb : s.enabled <;>
    · simp [hb, hclip, radians, Real.cos_zero]
      ring

/-- Witness for C7's amended claim at a concrete zero-error state. -/
theorem hover_thrust_amended_witness :
    thrust_raw cfg0 s_hover0 =
      4 * cfg0.thrustC * cfg0.m * cfg0.g * 2 ^ 16 :=
  hover_thrust_amended cfg0 s_hover0 rfl
    (by norm_num [e_z, s_hover0, initState]) rfl rfl rfl

end CF
